import Mathlib

/-!
Shallow embedding of the "places to visit" single-page application.

The repository has two components with behavior:
  * the list view (`src/routes/places/+page.svelte`): holds the `places`
    array together with the `loading`, `error`, `updatingStatusFor` and
    `deletingPlaceId` flags, and implements `fetchPlaces`,
    `handlePlaceAdded`, `toggleVisitedStatus` and `deletePlace`;
  * the add-place form (`AddPlaceForm`): holds the three input fields, the
    `adding` flag and the two messages, and implements `handleSubmit`.

Each `async` function has exactly one remote call, i.e. one suspension
point, so it is embedded as two pure functions: a `...Start` function for
the synchronous prefix up to (and including the decision to issue) the
remote call, and a `...Finish` function for the continuation, taking the
outcome of the remote call as a parameter (`none` = success, `some msg` =
a rejection carrying message `msg`).  `...Start` returns the new state
together with a `Bool` that is `true` exactly when the remote call was
issued.  The `disabled` conditions of the two per-item buttons are
embedded verbatim from the markup, and `click...` functions model a click
on a button: a disabled button does nothing.
-/

/-- One record of the `places` table, as in `interface Place` of
`+page.svelte`: `location` and `description` are nullable columns. -/
structure Place where
  id : String
  created_at : String
  name : String
  location : Option String
  description : Option String
  visited : Bool
deriving DecidableEq, Repr

/-- The component state of the list view: the fields declared at the top
of the script of `+page.svelte`. -/
structure ListState where
  places : List Place
  loading : Bool
  error : Option String
  updatingStatusFor : Option String
  deletingPlaceId : Option String
deriving DecidableEq, Repr

/-- The optimistic update of `toggleVisitedStatus` (line 64):
`places.map(p => p.id === place.id ? { ...p, visited: !p.visited } : p)`. -/
def optimisticToggle (placeId : String) (l : List Place) : List Place :=
  l.map fun p => if p.id = placeId then { p with visited := !p.visited } else p

/-- The rollback of `toggleVisitedStatus` (line 79):
`places.map(p => p.id === place.id ? { ...p, visited: originalStatus } : p)`. -/
def revertToggle (placeId : String) (originalStatus : Bool) (l : List Place) : List Place :=
  l.map fun p => if p.id = placeId then { p with visited := originalStatus } else p

/-- First phase of `toggleVisitedStatus` (lines 57-70): the
same-record guard, setting `updatingStatusFor`, the optimistic update,
and issuing the remote `update`.  The captured local `originalStatus` is
`place.visited`. -/
def toggleVisitedStatusStart (s : ListState) (place : Place) : ListState × Bool :=
  if s.updatingStatusFor = some place.id then (s, false)
  else
    ({ s with updatingStatusFor := some place.id
            , places := optimisticToggle place.id s.places }, true)

/-- Second phase of `toggleVisitedStatus` (lines 72-83): on a rejection,
the rollback and the alert text; in both cases the `finally` block clears
`updatingStatusFor`. -/
def toggleVisitedStatusFinish (s : ListState) (place : Place) (originalStatus : Bool)
    (updateError : Option String) : ListState × Option String :=
  match updateError with
  | none => ({ s with updatingStatusFor := none }, none)
  | some msg =>
      ({ s with places := revertToggle place.id originalStatus s.places
              , updatingStatusFor := none },
       some ("Failed to update status for " ++ place.name ++ ": " ++ msg))

/-- First phase of `deletePlace` (lines 86-104): the same-record guard,
the confirmation dialog (its answer is the `confirmed` parameter), setting
`deletingPlaceId`, the optimistic removal, and issuing the remote delete.
The captured local `originalPlaces` is the `places` value at entry. -/
def deletePlaceStart (s : ListState) (placeToDelete : Place) (confirmed : Bool) :
    ListState × Bool :=
  if s.deletingPlaceId = some placeToDelete.id then (s, false)
  else if confirmed = false then (s, false)
  else
    ({ s with deletingPlaceId := some placeToDelete.id
            , places := s.places.filter fun p => p.id != placeToDelete.id }, true)

/-- Second phase of `deletePlace` (lines 106-117): on a rejection, the
snapshot is restored and the alert text produced; in both cases the
`finally` block clears `deletingPlaceId`. -/
def deletePlaceFinish (s : ListState) (placeToDelete : Place) (originalPlaces : List Place)
    (deleteError : Option String) : ListState × Option String :=
  match deleteError with
  | none => ({ s with deletingPlaceId := none }, none)
  | some msg =>
      ({ s with places := originalPlaces, deletingPlaceId := none },
       some ("Failed to delete " ++ placeToDelete.name ++ ": " ++ msg))

/-- The `disabled` condition of an item's toggle button (line 156):
`updatingStatusFor === place.id || !!deletingPlaceId`. -/
def toggleBtnDisabled (s : ListState) (place : Place) : Bool :=
  s.updatingStatusFor = some place.id || s.deletingPlaceId.isSome

/-- The `disabled` condition of an item's delete button (line 163):
`deletingPlaceId === place.id || !!updatingStatusFor`. -/
def deleteBtnDisabled (s : ListState) (place : Place) : Bool :=
  s.deletingPlaceId = some place.id || s.updatingStatusFor.isSome

/-- Clicking an item's toggle button: a disabled button does nothing,
otherwise the handler `toggleVisitedStatus(place)` runs. -/
def clickToggle (s : ListState) (place : Place) : ListState × Bool :=
  if toggleBtnDisabled s place then (s, false) else toggleVisitedStatusStart s place

/-- Clicking an item's delete button: a disabled button does nothing,
otherwise the handler `deletePlace(place)` runs. -/
def clickDelete (s : ListState) (place : Place) (confirmed : Bool) : ListState × Bool :=
  if deleteBtnDisabled s place then (s, false) else deletePlaceStart s place confirmed

/-- The `placeAdded` event handler of the list view (lines 49-55):
`places = [newPlace, ...places]`. -/
def handlePlaceAdded (s : ListState) (newPlace : Place) : ListState :=
  { s with places := newPlace :: s.places }

/-- The component state of the add-place form: the fields declared at the
top of the `AddPlaceForm` script. -/
structure FormState where
  name : String
  location : String
  description : String
  adding : Bool
  errorMessage : Option String
  successMessage : Option String
deriving DecidableEq, Repr

/-- Outcome of the remote insert in `handleSubmit`: `ok row` is a resolved
call whose `.select()` returned `row` as `data[0]`; `err msg` is a
rejection whose `e.message` is `msg` (the empty string standing for a
missing/empty message, which is falsy in the source). -/
inductive InsertResult where
  | ok (row : Place)
  | err (msg : String)
deriving DecidableEq, Repr

/-- What one run of `handleSubmit` produces: the final component state,
whether the remote insert was issued, the record dispatched to the parent
via the `placeAdded` event (if any), and the delay in milliseconds of the
scheduled message-clearing `setTimeout` (if one was scheduled). -/
structure SubmitOutcome where
  state : FormState
  networkCalled : Bool
  emitted : Option Place
  timer : Option Nat
deriving DecidableEq, Repr

/-- JavaScript `String.prototype.trim` as used by `name.trim()`, embedded
structurally: removes leading and trailing whitespace characters. -/
def jsTrim (s : String) : String :=
  ⟨((s.data.dropWhile Char.isWhitespace).reverse.dropWhile Char.isWhitespace).reverse⟩

/-- The delay of the message-clearing `setTimeout` (line 52): 4000 ms. -/
def messageClearDelayMs : Nat := 4000

/-- The fallback text used when a rejection has no message (line 45). -/
def fallbackAddError : String := "Failed to add place. Please try again."

/-- The whole of `handleSubmit` (lines 14-54).  The validation branch
returns before the `try`, so it neither calls the network nor schedules
the `setTimeout` of the `finally` block; both remote branches end in the
`finally` block, which resets `adding` and schedules the 4000 ms clear. -/
def handleSubmit (s : FormState) (result : InsertResult) : SubmitOutcome :=
  if jsTrim s.name = "" then
    { state := { s with errorMessage := some "Name is required." }
    , networkCalled := false, emitted := none, timer := none }
  else
    match result with
    | .ok row =>
        { state := { s with
            name := ""
          , location := ""
          , description := ""
          , adding := false
          , errorMessage := none
          , successMessage := some ("Successfully added \"" ++ row.name ++ "\"!") }
        , networkCalled := true, emitted := some row, timer := some messageClearDelayMs }
    | .err msg =>
        { state := { s with
            adding := false
          , errorMessage := some (if msg = "" then fallbackAddError else msg)
          , successMessage := none }
        , networkCalled := true, emitted := none, timer := some messageClearDelayMs }

/-- The callback of the message-clearing `setTimeout` (lines 49-52). -/
def timerFire (s : FormState) : FormState :=
  { s with successMessage := none, errorMessage := none }

/-! Concrete records and states used by witnesses and counterexamples. -/

/-- A concrete record with identifier "a". -/
def placeA : Place :=
  { id := "a", created_at := "2024-01-01", name := "Alps"
  , location := some "Europe", description := none, visited := false }

/-- A concrete record with identifier "b". -/
def placeB : Place :=
  { id := "b", created_at := "2024-01-02", name := "Bali"
  , location := none, description := some "island", visited := true }

/-- The list view after a successful fetch of `[placeA, placeB]`. -/
def loadedState : ListState :=
  { places := [placeA, placeB], loading := false, error := none
  , updatingStatusFor := none, deletingPlaceId := none }

/-- The reachable state in which the toggle of `placeA` is in flight:
the result of clicking the toggle button of `placeA` in `loadedState`. -/
def toggleInFlightA : ListState := (clickToggle loadedState placeA).1

/-- A form whose name field holds only whitespace. -/
def blankNameForm : FormState :=
  { name := "   ", location := "Somewhere", description := "Nice"
  , adding := false, errorMessage := none, successMessage := none }

/-- A form with a non-blank name field. -/
def filledForm : FormState :=
  { name := "Alps", location := "Europe", description := "mountains"
  , adding := false, errorMessage := none, successMessage := none }

/-! Helper lemmas. -/

/-- Rolling the flip back restores any list in which every record carrying
the target identifier had `origStatus` as its `visited` value. -/
theorem revertToggle_optimisticToggle (placeId : String) (origStatus : Bool)
    (l : List Place) (hid : ∀ p ∈ l, p.id = placeId → p.visited = origStatus) :
    revertToggle placeId origStatus (optimisticToggle placeId l) = l := by
  unfold revertToggle optimisticToggle
  rw [List.map_map]
  have h : ∀ p ∈ l,
      ((fun p : Place => if p.id = placeId then { p with visited := origStatus } else p) ∘
        fun p : Place => if p.id = placeId then { p with visited := !p.visited } else p) p
        = id p := by
    intro p hp
    by_cases hpid : p.id = placeId
    · have hv := hid p hp hpid
      cases p
      simp only [Function.comp_apply, id_eq] at *
      simp_all
    · simp [Function.comp_apply, hpid]
  rw [List.map_congr_left h, List.map_id]

/-- On a list whose identifiers are pairwise distinct, the optimistic
removal (`filter` by a different identifier) removes exactly the target. -/
theorem filter_ne_eq_erase (target : Place) :
    ∀ l : List Place, (l.map Place.id).Nodup → target ∈ l →
      (l.filter fun p => p.id != target.id) = l.erase target := by
  intro l
  induction l with
  | nil => intro _ hmem; cases hmem
  | cons a tl ih =>
    intro hnodup hmem
    rw [List.map_cons, List.nodup_cons] at hnodup
    by_cases ha : a = target
    · subst ha
      rw [List.erase_cons_head, List.filter_cons]
      have hdrop : (a.id != a.id) = false := by simp
      simp only [hdrop, Bool.false_eq_true, if_false]
      apply List.filter_eq_self.mpr
      intro q hq
      have hqid : q.id ∈ tl.map Place.id := List.mem_map_of_mem _ hq
      have hne : q.id ≠ a.id := fun he => hnodup.1 (he ▸ hqid)
      simpa [bne_iff_ne] using hne
    · have hmt : target ∈ tl := by
        cases hmem with
        | head => exact absurd rfl ha
        | tail _ h => exact h

      have haid : (a.id != target.id) = true := by
        have h1 : target.id ∈ tl.map Place.id := List.mem_map_of_mem _ hmt
        rw [bne_iff_ne]
        intro he
        exact hnodup.1 (he ▸ h1)
      have hrec := ih hnodup.2 hmt
      rw [List.erase_cons_tail (by simpa using ha), List.filter_cons]
      simp [haid, hrec]

/-- Pointwise frame relation between a record and its image under the
optimistic flip: every field other than `visited` is preserved, `visited`
is preserved off the target identifier and flipped on it. -/
def frameOpt (placeId : String) (p q : Place) : Prop :=
  q.id = p.id ∧ q.created_at = p.created_at ∧ q.name = p.name ∧
    q.location = p.location ∧ q.description = p.description ∧
    (p.id ≠ placeId → q.visited = p.visited) ∧
    (p.id = placeId → q.visited = !p.visited)

/-- Pointwise frame relation between a record and its image under the
rollback: every field other than `visited` is preserved, `visited` is
preserved off the target identifier and set to `origStatus` on it. -/
def frameRevert (placeId : String) (origStatus : Bool) (p q : Place) : Prop :=
  q.id = p.id ∧ q.created_at = p.created_at ∧ q.name = p.name ∧
    q.location = p.location ∧ q.description = p.description ∧
    (p.id ≠ placeId → q.visited = p.visited) ∧
    (p.id = placeId → q.visited = origStatus)

/-! The claims. -/

/-- C1: while a toggle is in flight (`updatingStatusFor` is set), clicking
the delete button of any record is rejected with no state change and no
remote call; symmetrically, while a delete is in flight (`deletingPlaceId`
is set) no toggle click can start; and completing either operation clears
its in-flight marker. -/
theorem C1_toggle_delete_globally_exclusive
    (s : ListState) (place : Place) (confirmed originalStatus : Bool)
    (origPlaces : List Place) (e : Option String) :
    (s.updatingStatusFor.isSome = true → clickDelete s place confirmed = (s, false)) ∧
    (s.deletingPlaceId.isSome = true → clickToggle s place = (s, false)) ∧
    (toggleVisitedStatusFinish s place originalStatus e).1.updatingStatusFor = none ∧
    (deletePlaceFinish s place origPlaces e).1.deletingPlaceId = none := by
  refine ⟨fun h => ?_, fun h => ?_, ?_, ?_⟩
  · simp [clickDelete, deleteBtnDisabled, h]
  · simp [clickToggle, toggleBtnDisabled, h]
  · cases e <;> rfl
  · cases e <;> rfl

/-- C2 counterexample: in the reachable state `toggleInFlightA`, in which
the toggle of record "a" is in flight, clicking the toggle of record "b"
is not a no-op: the button is enabled, a remote call is issued and the
component state changes. -/
theorem C2_counterexample :
    toggleInFlightA.updatingStatusFor = some placeA.id ∧
    (clickToggle toggleInFlightA placeB).2 = true ∧
    (clickToggle toggleInFlightA placeB).1 ≠ toggleInFlightA := by
  refine ⟨by decide, by decide, by decide⟩

/-- C2 amended: the toggle guard is per-record, not global: invoking
`toggleVisitedStatus` on a record whose own toggle is in flight is a
no-op (no state change, no remote call), both for the handler and for a
button click. -/
theorem C2_toggle_guard_per_record (s : ListState) (place : Place)
    (h : s.updatingStatusFor = some place.id) :
    toggleVisitedStatusStart s place = (s, false) ∧
    clickToggle s place = (s, false) := by
  constructor
  · unfold toggleVisitedStatusStart
    rw [if_pos h]
  · simp [clickToggle, toggleBtnDisabled, h]

/-- C2 witness: the amended guard at the reachable state `toggleInFlightA`
and its own in-flight record `placeA`. -/
theorem C2_toggle_guard_per_record_witness :
    toggleVisitedStatusStart toggleInFlightA placeA = (toggleInFlightA, false) ∧
    clickToggle toggleInFlightA placeA = (toggleInFlightA, false) :=
  C2_toggle_guard_per_record toggleInFlightA placeA (by decide)

/-- C10: if the user declines the confirmation dialog, `deletePlace`
returns with no remote call and no change to any component state, both as
a handler and as a button click. -/
theorem C10_decline_confirm_is_noop (s : ListState) (place : Place) :
    deletePlaceStart s place false = (s, false) ∧
    clickDelete s place false = (s, false) := by
  have h1 : deletePlaceStart s place false = (s, false) := by
    by_cases h : s.deletingPlaceId = some place.id <;>
      simp [deletePlaceStart, h]
  refine ⟨h1, ?_⟩
  by_cases h2 : deleteBtnDisabled s place <;> simp [clickDelete, h2, h1]

/-- C5: submitting the form while the name is empty or whitespace-only
issues no network call, shows the required-field error, and leaves all
three entered field values (and everything else) unchanged. -/
theorem C5_blank_name_rejected_locally (s : FormState) (r : InsertResult)
    (h : jsTrim s.name = "") :
    handleSubmit s r =
      { state := { s with errorMessage := some "Name is required." }
      , networkCalled := false, emitted := none, timer := none } ∧
    (handleSubmit s r).state.name = s.name ∧
    (handleSubmit s r).state.location = s.location ∧
    (handleSubmit s r).state.description = s.description := by
  have h1 : handleSubmit s r =
      { state := { s with errorMessage := some "Name is required." }
      , networkCalled := false, emitted := none, timer := none } := by
    unfold handleSubmit
    rw [if_pos h]
  exact ⟨h1, by rw [h1], by rw [h1], by rw [h1]⟩

/-- C5 witness: the whitespace-only form `blankNameForm`. -/
theorem C5_blank_name_rejected_locally_witness :
    handleSubmit blankNameForm (.err "x") =
      { state := { blankNameForm with errorMessage := some "Name is required." }
      , networkCalled := false, emitted := none, timer := none } ∧
    (handleSubmit blankNameForm (.err "x")).state.name = blankNameForm.name ∧
    (handleSubmit blankNameForm (.err "x")).state.location = blankNameForm.location ∧
    (handleSubmit blankNameForm (.err "x")).state.description = blankNameForm.description :=
  C5_blank_name_rejected_locally blankNameForm (.err "x") (by decide)

/-- C6: on a successful create, all three fields are cleared, the success
message naming the inserted row is shown, the created record is emitted
to the parent, and prepending it via `handlePlaceAdded` puts it at the
head of the displayed list. -/
theorem C6_successful_create (s : FormState) (row : Place) (ls : ListState)
    (h : jsTrim s.name ≠ "") :
    (handleSubmit s (.ok row)).state.name = "" ∧
    (handleSubmit s (.ok row)).state.location = "" ∧
    (handleSubmit s (.ok row)).state.description = "" ∧
    (handleSubmit s (.ok row)).state.successMessage =
      some ("Successfully added \"" ++ row.name ++ "\"!") ∧
    (handleSubmit s (.ok row)).networkCalled = true ∧
    (handleSubmit s (.ok row)).emitted = some row ∧
    (handlePlaceAdded ls row).places = row :: ls.places := by
  simp [handleSubmit, h, handlePlaceAdded]

/-- C6 witness: the filled form, the inserted row `placeA` and the loaded
list view. -/
theorem C6_successful_create_witness :
    (handleSubmit filledForm (.ok placeA)).state.name = "" ∧
    (handleSubmit filledForm (.ok placeA)).state.location = "" ∧
    (handleSubmit filledForm (.ok placeA)).state.description = "" ∧
    (handleSubmit filledForm (.ok placeA)).state.successMessage =
      some ("Successfully added \"" ++ placeA.name ++ "\"!") ∧
    (handleSubmit filledForm (.ok placeA)).networkCalled = true ∧
    (handleSubmit filledForm (.ok placeA)).emitted = some placeA ∧
    (handlePlaceAdded loadedState placeA).places = placeA :: loadedState.places :=
  C6_successful_create filledForm placeA loadedState (by decide)

/-- C7: on a failed create, the form retains the three entered values,
shows the failure's message (or the generic fallback when the message is
empty), schedules the 4000 ms clear, and firing that timer removes the
message. -/
theorem C7_failed_create_retains_and_clears (s : FormState) (msg : String)
    (h : jsTrim s.name ≠ "") :
    (handleSubmit s (.err msg)).state.name = s.name ∧
    (handleSubmit s (.err msg)).state.location = s.location ∧
    (handleSubmit s (.err msg)).state.description = s.description ∧
    (handleSubmit s (.err msg)).state.errorMessage =
      some (if msg = "" then fallbackAddError else msg) ∧
    (handleSubmit s (.err msg)).timer = some messageClearDelayMs ∧
    (timerFire (handleSubmit s (.err msg)).state).errorMessage = none ∧
    (timerFire (handleSubmit s (.err msg)).state).successMessage = none := by
  simp [handleSubmit, h, timerFire]

/-- C7 witness: the filled form and a failing insert. -/
theorem C7_failed_create_retains_and_clears_witness :
    (handleSubmit filledForm (.err "network down")).state.name = filledForm.name ∧
    (handleSubmit filledForm (.err "network down")).state.location = filledForm.location ∧
    (handleSubmit filledForm (.err "network down")).state.description =
      filledForm.description ∧
    (handleSubmit filledForm (.err "network down")).state.errorMessage =
      some (if "network down" = "" then fallbackAddError else "network down") ∧
    (handleSubmit filledForm (.err "network down")).timer = some messageClearDelayMs ∧
    (timerFire (handleSubmit filledForm (.err "network down")).state).errorMessage = none ∧
    (timerFire (handleSubmit filledForm (.err "network down")).state).successMessage = none :=
  C7_failed_create_retains_and_clears filledForm "network down" (by decide)

/-- C8 counterexample: the required-field validation error is shown but no
clearing timer is scheduled for it, so it does not auto-clear after the
4-second delay. -/
theorem C8_counterexample :
    (handleSubmit blankNameForm (.err "x")).state.errorMessage =
      some "Name is required." ∧
    (handleSubmit blankNameForm (.err "x")).timer = none := by
  refine ⟨by decide, by decide⟩

/-- C8 amended: every message set by a remote submission outcome (success
or failure) is scheduled to clear after the fixed 4000 ms delay and firing
the timer removes it; the local required-field validation error schedules
no clear. -/
theorem C8_autoclear_only_for_remote_outcomes (s : FormState) (r : InsertResult) :
    (jsTrim s.name ≠ "" →
      (handleSubmit s r).timer = some messageClearDelayMs ∧
      (timerFire (handleSubmit s r).state).successMessage = none ∧
      (timerFire (handleSubmit s r).state).errorMessage = none) ∧
    (jsTrim s.name = "" → (handleSubmit s r).timer = none) := by
  constructor
  · intro h
    cases r with
    | ok row => simp [handleSubmit, h, timerFire]
    | err msg => simp [handleSubmit, h, timerFire]
  · intro h
    simp [handleSubmit, h]

/-- C3: starting a toggle flips the record's `visited` optimistically;
if the remote update fails, the places list is restored to its pre-toggle
value and the alert names the record and carries the error text; on
success the flipped value is kept.  The hypotheses say the guard does not
fire and that the identifier determines the record, the spec's uniqueness
invariant. -/
theorem C3_toggle_failure_reverts_success_keeps
    (s : ListState) (place : Place) (msg : String)
    (hguard : s.updatingStatusFor ≠ some place.id)
    (hid : ∀ p ∈ s.places, p.id = place.id → p = place) :
    (toggleVisitedStatusFinish (toggleVisitedStatusStart s place).1 place place.visited
        (some msg)).1.places = s.places ∧
    (toggleVisitedStatusFinish (toggleVisitedStatusStart s place).1 place place.visited
        (some msg)).2 =
      some ("Failed to update status for " ++ place.name ++ ": " ++ msg) ∧
    (toggleVisitedStatusFinish (toggleVisitedStatusStart s place).1 place place.visited
        none).1.places = optimisticToggle place.id s.places ∧
    (∀ q ∈ (toggleVisitedStatusFinish (toggleVisitedStatusStart s place).1 place
        place.visited none).1.places, q.id = place.id → q.visited = !place.visited) := by
  have hstart : (toggleVisitedStatusStart s place).1 =
      { s with updatingStatusFor := some place.id
             , places := optimisticToggle place.id s.places } := by
    unfold toggleVisitedStatusStart
    rw [if_neg hguard]
  have hopt : (toggleVisitedStatusFinish (toggleVisitedStatusStart s place).1 place
      place.visited none).1.places = optimisticToggle place.id s.places := by
    rw [hstart]
    rfl
  refine ⟨?_, rfl, hopt, ?_⟩
  · rw [hstart]
    show revertToggle place.id place.visited (optimisticToggle place.id s.places) = s.places
    exact revertToggle_optimisticToggle place.id place.visited s.places
      (fun p hp hpid => by rw [hid p hp hpid])
  · intro q hq hqid
    rw [hopt] at hq
    show q.visited = !place.visited
    simp only [optimisticToggle, List.mem_map] at hq
    obtain ⟨p, hp, hfp⟩ := hq
    by_cases hpid : p.id = place.id
    · have hpeq := hid p hp hpid
      subst hpeq
      rw [if_pos hpid] at hfp
      rw [← hfp]
    · rw [if_neg hpid] at hfp
      rw [← hfp] at hqid
      exact absurd hqid hpid

/-- C3 witness: the loaded list view, the record `placeA` and a failing
remote update. -/
theorem C3_toggle_failure_reverts_success_keeps_witness :
    (toggleVisitedStatusFinish (toggleVisitedStatusStart loadedState placeA).1 placeA
        placeA.visited (some "boom")).1.places = loadedState.places ∧
    (toggleVisitedStatusFinish (toggleVisitedStatusStart loadedState placeA).1 placeA
        placeA.visited (some "boom")).2 =
      some ("Failed to update status for " ++ placeA.name ++ ": " ++ "boom") ∧
    (toggleVisitedStatusFinish (toggleVisitedStatusStart loadedState placeA).1 placeA
        placeA.visited none).1.places = optimisticToggle placeA.id loadedState.places ∧
    (∀ q ∈ (toggleVisitedStatusFinish (toggleVisitedStatusStart loadedState placeA).1 placeA
        placeA.visited none).1.places, q.id = placeA.id → q.visited = !placeA.visited) :=
  C3_toggle_failure_reverts_success_keeps loadedState placeA "boom" (by decide) (by decide)

/-- C4: confirming a delete issues the remote call and removes exactly the
targeted record from the local list, keeping the order of the rest; if
the remote delete fails, the list is restored to exactly the pre-delete
snapshot and the alert names the record and carries the error text.  The
hypotheses say the guard does not fire, that the listed identifiers are
pairwise distinct (the spec's uniqueness invariant) and that the record
is listed. -/
theorem C4_delete_removes_target_and_rolls_back
    (s : ListState) (target : Place) (msg : String)
    (hguard : s.deletingPlaceId ≠ some target.id)
    (hnodup : (s.places.map Place.id).Nodup)
    (hmem : target ∈ s.places) :
    (deletePlaceStart s target true).2 = true ∧
    (deletePlaceStart s target true).1.places = s.places.erase target ∧
    (deletePlaceFinish (deletePlaceStart s target true).1 target s.places
        (some msg)).1.places = s.places ∧
    (deletePlaceFinish (deletePlaceStart s target true).1 target s.places
        (some msg)).2 = some ("Failed to delete " ++ target.name ++ ": " ++ msg) := by
  have hstart : deletePlaceStart s target true =
      ({ s with deletingPlaceId := some target.id
              , places := s.places.filter fun p => p.id != target.id }, true) := by
    unfold deletePlaceStart
    rw [if_neg hguard]
    simp
  refine ⟨by rw [hstart], ?_, rfl, rfl⟩
  rw [hstart]
  exact filter_ne_eq_erase target s.places hnodup hmem

/-- C4 witness: deleting `placeB` from the loaded list view with a failing
remote delete. -/
theorem C4_delete_removes_target_and_rolls_back_witness :
    (deletePlaceStart loadedState placeB true).2 = true ∧
    (deletePlaceStart loadedState placeB true).1.places =
      loadedState.places.erase placeB ∧
    (deletePlaceFinish (deletePlaceStart loadedState placeB true).1 placeB
        loadedState.places (some "denied")).1.places = loadedState.places ∧
    (deletePlaceFinish (deletePlaceStart loadedState placeB true).1 placeB
        loadedState.places (some "denied")).2 =
      some ("Failed to delete " ++ placeB.name ++ ": " ++ "denied") :=
  C4_delete_removes_target_and_rolls_back loadedState placeB "denied"
    (by decide) (by decide) (by decide)

/-- C9: both the optimistic update and the failure rollback of the toggle
preserve the list's length and order, leave every field of every record
other than `visited` unchanged, and leave `visited` itself unchanged on
every record whose identifier differs from the targeted one. -/
theorem C9_toggle_frame (placeId : String) (origStatus : Bool) (l : List Place) :
    (optimisticToggle placeId l).length = l.length ∧
    (revertToggle placeId origStatus l).length = l.length ∧
    List.Forall₂ (frameOpt placeId) l (optimisticToggle placeId l) ∧
    List.Forall₂ (frameRevert placeId origStatus) l (revertToggle placeId origStatus l) := by
  refine ⟨by simp [optimisticToggle], by simp [revertToggle], ?_, ?_⟩
  · induction l with
    | nil => exact List.Forall₂.nil
    | cons a tl ih =>
      simp only [optimisticToggle, List.map_cons] at ih ⊢
      refine List.Forall₂.cons ?_ ih
      by_cases h : a.id = placeId <;> simp [frameOpt, h]
  · induction l with
    | nil => exact List.Forall₂.nil
    | cons a tl ih =>
      simp only [revertToggle, List.map_cons] at ih ⊢
      refine List.Forall₂.cons ?_ ih
      by_cases h : a.id = placeId <;> simp [frameRevert, h]
